import Mathlib

/-!
Verification of the consensus subsystem of the QuantumSecureToken repository:
validator reputation management (`src/consensus/reputation.rs`), block-proposal
verification and vote tallying (`src/consensus/block_proposal.rs`).

Modelling conventions:
- `f32` scores, point deltas and thresholds are modelled as exact rationals
  (`Rat`).  All configuration constants and score updates in the claims stay in
  ranges where `f32` arithmetic is exact, and the clamping bounds are
  independent of rounding.
- `std::time::Instant` and `Duration` are modelled as `Nat` (a monotone clock
  in abstract ticks); every operation that reads `Instant::now()` in the Rust
  source takes the current time as an explicit `now : Nat` argument.
- `HashMap<String, _>` is modelled as an association list
  `List (String × _)`; lookup takes the first entry with a matching key, and
  in-place mutation through `get_mut` is modelled by rewriting that entry.
- Rust `Result<T, E>` is modelled as `Except E T`.
-/

/-- The reputation-affecting actions (`ReputationAction` in
`src/consensus/reputation.rs`). -/
inductive ReputationAction where
  | ValidBlockProposed
  | InvalidBlockProposed
  | CorrectVote
  | IncorrectVote
  | Timeout
  | DoubleVote
  | Offline
  | BackOnline
  | InvalidMessage
  | UnauthorizedProposal
deriving Repr, DecidableEq

/-- Per-validator reputation record (`ValidatorReputation` in
`src/consensus/reputation.rs`).  `SerializableInstant` fields are `Nat`
instants. -/
structure ValidatorReputation where
  validator_id : String
  score : Rat
  successful_proposals : Nat
  invalid_proposals : Nat
  correct_votes : Nat
  incorrect_votes : Nat
  timeouts : Nat
  double_votes : Nat
  last_seen : Nat
  is_banned : Bool
  banned_until : Option Nat
deriving Repr, DecidableEq

/-- `ValidatorReputation::new`: fresh record at neutral score 50. -/
def ValidatorReputation.new (validator_id : String) (now : Nat) : ValidatorReputation :=
  { validator_id := validator_id
    score := 50
    successful_proposals := 0
    invalid_proposals := 0
    correct_votes := 0
    incorrect_votes := 0
    timeouts := 0
    double_votes := 0
    last_seen := now
    is_banned := false
    banned_until := none }

/-- `ValidatorReputation::is_offline`: `last_seen.elapsed() > threshold`. -/
def ValidatorReputation.is_offline (rep : ValidatorReputation) (threshold now : Nat) : Bool :=
  decide (threshold < now - rep.last_seen)

/-- `ValidatorReputation::ban`: mark banned until `now + duration` and floor
the score at 10 (`self.score = self.score.max(10.0)`). -/
def banRep (rep : ValidatorReputation) (now duration : Nat) : ValidatorReputation :=
  { rep with
    is_banned := true
    banned_until := some (now + duration)
    score := max rep.score 10 }

/-- `ValidatorReputation::check_ban_status`: lazily clear an expired ban
(`Instant::now() >= until`). -/
def checkBanStatus (rep : ValidatorReputation) (now : Nat) : ValidatorReputation :=
  match rep.banned_until with
  | some until_t =>
      if until_t ≤ now then
        { rep with is_banned := false, banned_until := none }
      else rep
  | none => rep

/-- Tunable constants (`ReputationConfig` in `src/consensus/reputation.rs`). -/
structure ReputationConfig where
  valid_block_points : Rat
  invalid_block_penalty : Rat
  correct_vote_points : Rat
  incorrect_vote_penalty : Rat
  timeout_penalty : Rat
  double_vote_penalty : Rat
  offline_penalty : Rat
  back_online_points : Rat
  suspicious_threshold : Rat
  ban_threshold : Rat
  initial_ban_duration : Nat
  decay_factor : Rat
deriving Repr, DecidableEq

/-- `ReputationConfig::default` (ban duration in seconds). -/
def ReputationConfig.default : ReputationConfig :=
  { valid_block_points := 2
    invalid_block_penalty := 10
    correct_vote_points := 1
    incorrect_vote_penalty := 5
    timeout_penalty := 3
    double_vote_penalty := 20
    offline_penalty := 5
    back_online_points := 1
    suspicious_threshold := 30
    ban_threshold := 15
    initial_ban_duration := 3600
    decay_factor := 9 / 10 }

/-- The reputation ledger (`ReputationSystem`): map from validator id to its
reputation, plus the configuration. -/
structure ReputationSystem where
  reputations : List (String × ValidatorReputation)
  config : ReputationConfig
deriving Repr, DecidableEq

/-- `ReputationSystem::new`. -/
def ReputationSystem.new : ReputationSystem :=
  { reputations := [], config := ReputationConfig.default }

/-- `ReputationSystem::with_config`. -/
def ReputationSystem.with_config (config : ReputationConfig) : ReputationSystem :=
  { reputations := [], config := config }

/-- `HashMap::get` on the reputation map. -/
def findRep (sys : ReputationSystem) (validator_id : String) : Option ValidatorReputation :=
  (sys.reputations.find? (fun p => p.1 = validator_id)).map (fun p => p.2)

/-- In-place mutation through `get_mut`: rewrite the entry with the given key. -/
def modifyEntry (l : List (String × ValidatorReputation)) (validator_id : String)
    (f : ValidatorReputation → ValidatorReputation) : List (String × ValidatorReputation) :=
  match l with
  | [] => []
  | (k, v) :: rest =>
      if k = validator_id then (k, f v) :: rest
      else (k, v) :: modifyEntry rest validator_id f

/-- Write back a mutated reputation record into the system. -/
def writeRep (sys : ReputationSystem) (validator_id : String)
    (f : ValidatorReputation → ValidatorReputation) : ReputationSystem :=
  { sys with reputations := modifyEntry sys.reputations validator_id f }

/-- `ReputationSystem::add_validator`: idempotent registration at neutral
score. -/
def addValidator (sys : ReputationSystem) (validator_id : String) (now : Nat) :
    ReputationSystem :=
  if (findRep sys validator_id).isSome then sys
  else
    { sys with
      reputations := sys.reputations ++ [(validator_id, ValidatorReputation.new validator_id now)] }

/-- The `match action` block of `update_reputation`: increments the matching
behavioural counter and yields the signed point adjustment. -/
def applyAction (cfg : ReputationConfig) (rep : ValidatorReputation) (action : ReputationAction) :
    ValidatorReputation × Rat :=
  match action with
  | .ValidBlockProposed =>
      ({ rep with successful_proposals := rep.successful_proposals + 1 }, cfg.valid_block_points)
  | .InvalidBlockProposed =>
      ({ rep with invalid_proposals := rep.invalid_proposals + 1 }, -cfg.invalid_block_penalty)
  | .CorrectVote =>
      ({ rep with correct_votes := rep.correct_votes + 1 }, cfg.correct_vote_points)
  | .IncorrectVote =>
      ({ rep with incorrect_votes := rep.incorrect_votes + 1 }, -cfg.incorrect_vote_penalty)
  | .Timeout =>
      ({ rep with timeouts := rep.timeouts + 1 }, -cfg.timeout_penalty)
  | .DoubleVote =>
      ({ rep with double_votes := rep.double_votes + 1 }, -cfg.double_vote_penalty)
  | .Offline => (rep, -cfg.offline_penalty)
  | .BackOnline => (rep, cfg.back_online_points)
  | .InvalidMessage => (rep, -cfg.incorrect_vote_penalty)
  | .UnauthorizedProposal => (rep, -cfg.invalid_block_penalty)

/-- `(x + adjustment).max(0.0).min(100.0)`. -/
def clampScore (q : Rat) : Rat :=
  min (max q 0) 100

/-- The scoring part of `update_reputation` for a non-banned record: apply the
action, clamp the score to `[0, 100]`, and trigger the escalating ban when the
adjustment was negative and the new score fell below `ban_threshold`
(`multiplier = (1 + double_votes) * (1 + invalid_proposals)`, post-increment;
ban for `initial_ban_duration * multiplier`). -/
def scoreStep (cfg : ReputationConfig) (rep : ValidatorReputation) (action : ReputationAction)
    (now : Nat) : ValidatorReputation :=
  let pair := applyAction cfg rep action
  let rep4 := { pair.1 with score := clampScore (pair.1.score + pair.2) }
  if pair.2 < 0 ∧ rep4.score < cfg.ban_threshold then
    banRep rep4 now
      (cfg.initial_ban_duration * ((1 + rep4.double_votes) * (1 + rep4.invalid_proposals)))
  else rep4

/-- `ReputationSystem::update_reputation`.  Fails for an unknown id; updates
`last_seen`; lazily expires the ban; fails (after persisting `last_seen`) when
still banned; otherwise applies the scoring step and returns the new score. -/
def updateReputation (sys : ReputationSystem) (validator_id : String)
    (action : ReputationAction) (now : Nat) : ReputationSystem × Except String Rat :=
  match findRep sys validator_id with
  | none => (sys, Except.error ("Validador não encontrado: " ++ validator_id))
  | some rep0 =>
      let rep1 := { rep0 with last_seen := now }
      let rep2 := if rep1.is_banned then checkBanStatus rep1 now else rep1
      if rep2.is_banned then
        (writeRep sys validator_id (fun _ => rep2),
         Except.error ("Validador está banido: " ++ validator_id))
      else
        let rep5 := scoreStep sys.config rep2 action now
        (writeRep sys validator_id (fun _ => rep5), Except.ok rep5.score)

/-- `ReputationSystem::ban_validator`: explicit administrative ban. -/
def banValidator (sys : ReputationSystem) (validator_id : String) (duration now : Nat) :
    ReputationSystem × Except String Unit :=
  match findRep sys validator_id with
  | none => (sys, Except.error ("Validador não encontrado: " ++ validator_id))
  | some _ => (writeRep sys validator_id (fun r => banRep r now duration), Except.ok ())

/-- `ReputationSystem::set_reputation`: direct override, clamped to `[0,100]`. -/
def setReputation (sys : ReputationSystem) (validator_id : String) (score : Rat) :
    ReputationSystem × Except String Unit :=
  match findRep sys validator_id with
  | none => (sys, Except.error ("Validador não encontrado: " ++ validator_id))
  | some _ =>
      (writeRep sys validator_id (fun r => { r with score := clampScore score }), Except.ok ())

/-- `ReputationSystem::is_banned`: `false` for an unregistered id. -/
def isBannedQuery (sys : ReputationSystem) (validator_id : String) : Bool :=
  ((findRep sys validator_id).map (fun r => r.is_banned)).getD false

/-- `ReputationSystem::update_offline_status`: snapshot the ids of offline,
non-banned validators, then apply the `Offline` action to each (result
discarded). -/
def updateOfflineStatus (sys : ReputationSystem) (offline_threshold now : Nat) :
    ReputationSystem :=
  let ids :=
    (sys.reputations.filter
      (fun p => p.2.is_offline offline_threshold now && !p.2.is_banned)).map (fun p => p.1)
  ids.foldl (fun s i => (updateReputation s i ReputationAction.Offline now).1) sys

/-- Modelled from the spec: the validator directory entry.  The file
`src/consensus/validator.rs` is not under `src/`; spec section 6 gives the
consumed interface `get_validator(id) -> Option<{is_active: bool, ...}>`. -/
structure ValidatorInfo where
  validator_id : String
  is_active : Bool
deriving Repr, DecidableEq

/-- Modelled from the spec: the validator directory (`ValidatorSet` of the
missing `src/consensus/validator.rs`), answering `get_validator`, `contains`
and `count_active` (spec section 6). -/
structure ValidatorSet where
  validators : List ValidatorInfo
deriving Repr, DecidableEq

/-- Modelled from the spec: `get_validator(id)` resolves an id in the
directory. -/
def ValidatorSet.get_validator (s : ValidatorSet) (validator_id : String) :
    Option ValidatorInfo :=
  s.validators.find? (fun v => v.validator_id = validator_id)

/-- Modelled from the spec: `contains(id) -> bool`. -/
def ValidatorSet.containsId (s : ValidatorSet) (validator_id : String) : Bool :=
  (s.get_validator validator_id).isSome

/-- Modelled from the spec: `count_active() -> usize`, the number of active
validators. -/
def ValidatorSet.count_active (s : ValidatorSet) : Nat :=
  (s.validators.filter (fun v => v.is_active)).length

/-- Modelled from the spec: `VerificationResult` of the missing
`src/consensus/types.rs` is `Valid | Invalid(reason)` (spec section 4.2). -/
inductive VerificationResult where
  | Valid
  | Invalid (reason : String)
deriving Repr, DecidableEq

/-- Modelled from the spec: `ConsensusError` of the missing
`src/consensus/types.rs` has variants `InternalError`, `InvalidProposer`,
`ValidationFailed` (spec section 7). -/
inductive ConsensusError where
  | InternalError (msg : String)
  | InvalidProposer (msg : String)
  | ValidationFailed (msg : String)
deriving Repr, DecidableEq

/-- A block proposal (`BlockProposal` in `src/consensus/block_proposal.rs`);
signatures are opaque byte lists, times are `Nat` (millis for `timestamp`,
monotone ticks for `received_at`). -/
structure BlockProposal where
  block_hash : String
  block_height : Nat
  parent_hash : String
  timestamp : Nat
  proposer_id : String
  signature : List Nat
  transaction_hashes : List String
  consensus_data : List Nat
  received_at : Nat
deriving Repr, DecidableEq

/-- `ProposalVerifier::verify`.  The verifier holds `Arc<RwLock<_>>` handles to
the directory and the ledger; here they are explicit arguments and the updated
ledger is returned (lock acquisition cannot fail in this sequential model, so
the `InternalError` paths are unreachable).  `now_ms` is the wall clock used
for the timestamp-skew check; `now_mono` is the monotone clock handed to the
reputation update. -/
def verifyProposal (validators : ValidatorSet) (reputation : ReputationSystem)
    (proposal : BlockProposal) (now_ms now_mono : Nat) :
    Except ConsensusError (VerificationResult × ReputationSystem) :=
  match validators.get_validator proposal.proposer_id with
  | some v =>
      if !v.is_active then
        Except.ok (VerificationResult.Invalid "Validador não está ativo", reputation)
      else
        if proposal.signature.isEmpty then
          Except.ok (VerificationResult.Invalid "Assinatura inválida", reputation)
        else
          let time_diff :=
            if proposal.timestamp < now_ms then now_ms - proposal.timestamp
            else proposal.timestamp - now_ms
          if 300000 < time_diff then
            Except.ok (VerificationResult.Invalid "Timestamp inválido", reputation)
          else
            let res :=
              updateReputation reputation proposal.proposer_id
                ReputationAction.ValidBlockProposed now_mono
            Except.ok (VerificationResult.Valid, res.1)
  | none => Except.ok (VerificationResult.Invalid "Validador desconhecido", reputation)

/-- A vote on a proposal (`ProposalVote` in `src/consensus/block_proposal.rs`). -/
structure ProposalVote where
  block_hash : String
  block_height : Nat
  validator_id : String
  is_in_favor : Bool
  signature : List Nat
  timestamp : Nat
deriving Repr, DecidableEq

/-- The outcome of tallying (`VotingResult` in
`src/consensus/block_proposal.rs`). -/
structure VotingResult where
  block_hash : String
  block_height : Nat
  total_votes : Nat
  votes_in_favor : Nat
  votes_against : Nat
  approval_percentage : Rat
  reached_quorum : Bool
  is_approved : Bool
deriving Repr, DecidableEq

/-- The vote-tally state (`VotingCoordinator`): map from block hash to the
votes received, plus the approval threshold.  The directory and ledger handles
are passed explicitly to the operations. -/
structure VotingCoordinator where
  current_votes : List (String × List ProposalVote)
  approval_threshold : Rat
deriving Repr, DecidableEq

/-- `HashMap::get` on the vote map. -/
def lookupVotes (coord : VotingCoordinator) (block_hash : String) :
    Option (List ProposalVote) :=
  (coord.current_votes.find? (fun p => p.1 = block_hash)).map (fun p => p.2)

/-- Replace (or create, as `entry(..).or_insert_with(..)` does) the vote list
stored for a hash. -/
def setVotesList (l : List (String × List ProposalVote)) (block_hash : String)
    (votes : List ProposalVote) : List (String × List ProposalVote) :=
  match l with
  | [] => [(block_hash, votes)]
  | (k, v) :: rest =>
      if k = block_hash then (k, votes) :: rest
      else (k, v) :: setVotesList rest block_hash votes

/-- Store a vote list in the coordinator. -/
def setVotes (coord : VotingCoordinator) (block_hash : String)
    (votes : List ProposalVote) : VotingCoordinator :=
  { coord with current_votes := setVotesList coord.current_votes block_hash votes }

/-- The votes currently stored for a hash (empty when the hash is unknown). -/
def storedVotes (coord : VotingCoordinator) (block_hash : String) : List ProposalVote :=
  (lookupVotes coord block_hash).getD []

/-- `VotingCoordinator::process_vote`.  Unknown voter: `Err(InvalidProposer)`.
Duplicate `(validator_id, block_hash)`: penalize through the ledger
(best-effort) and `Err(ValidationFailed)` without adding the vote.  Otherwise
append the vote and return `Ok(true)`. -/
def processVote (coord : VotingCoordinator) (validators : ValidatorSet)
    (reputation : ReputationSystem) (vote : ProposalVote) (now : Nat) :
    VotingCoordinator × ReputationSystem × Except ConsensusError Bool :=
  if !(validators.containsId vote.validator_id) then
    (coord, reputation,
     Except.error (ConsensusError.InvalidProposer
       ("Validador desconhecido: " ++ vote.validator_id)))
  else
    let votes := storedVotes coord vote.block_hash
    if votes.any (fun v => v.validator_id = vote.validator_id) then
      let res := updateReputation reputation vote.validator_id ReputationAction.DoubleVote now
      (setVotes coord vote.block_hash votes, res.1,
       Except.error (ConsensusError.ValidationFailed "Tentativa de double-voting"))
    else
      (setVotes coord vote.block_hash (votes ++ [vote]), reputation, Except.ok true)

/-- `VotingCoordinator::tally_votes`: `None` when no votes are recorded,
otherwise counts, the exact approval percentage, the integer-division quorum
test `total_votes >= total_validators * 2 / 3`, and
`is_approved = reached_quorum && approval_percentage >= approval_threshold`. -/
def tallyVotes (coord : VotingCoordinator) (validators : ValidatorSet)
    (block_hash : String) : Option VotingResult :=
  match lookupVotes coord block_hash with
  | none => none
  | some votes =>
      match votes with
      | [] => none
      | v0 :: _ =>
          let total_votes := votes.length
          let votes_in_favor := (votes.filter (fun v => v.is_in_favor)).length
          let votes_against := total_votes - votes_in_favor
          let approval_percentage :=
            ((votes_in_favor : Rat) / (total_votes : Rat)) * 100
          let total_validators := validators.count_active
          let reached_quorum := decide (total_validators * 2 / 3 ≤ total_votes)
          let is_approved := decide (coord.approval_threshold ≤ approval_percentage)
          some
            { block_hash := block_hash
              block_height := v0.block_height
              total_votes := total_votes
              votes_in_favor := votes_in_favor
              votes_against := votes_against
              approval_percentage := approval_percentage
              reached_quorum := reached_quorum
              is_approved := reached_quorum && is_approved }

/-- `VotingCoordinator::clear_votes`. -/
def clearVotes (coord : VotingCoordinator) (block_hash : String) : VotingCoordinator :=
  { coord with current_votes := coord.current_votes.filter (fun p => ¬(p.1 = block_hash)) }

/-- `VotingCoordinator::has_reached_finality`:
`tally_votes(..).map(is_approved).unwrap_or(false)`. -/
def hasReachedFinality (coord : VotingCoordinator) (validators : ValidatorSet)
    (block_hash : String) : Bool :=
  match tallyVotes coord validators block_hash with
  | some result => result.is_approved
  | none => false

/-- The ledger operations a caller can perform (used to state the global score
invariant over arbitrary operation sequences). -/
inductive RepOp where
  | add (validator_id : String) (now : Nat)
  | update (validator_id : String) (action : ReputationAction) (now : Nat)
  | setScore (validator_id : String) (score : Rat)
  | ban (validator_id : String) (duration now : Nat)
  | offline (threshold now : Nat)

/-- Interpret one ledger operation. -/
def applyOp (sys : ReputationSystem) : RepOp → ReputationSystem
  | RepOp.add validator_id now => addValidator sys validator_id now
  | RepOp.update validator_id action now => (updateReputation sys validator_id action now).1
  | RepOp.setScore validator_id score => (setReputation sys validator_id score).1
  | RepOp.ban validator_id duration now => (banValidator sys validator_id duration now).1
  | RepOp.offline threshold now => updateOfflineStatus sys threshold now

/-- Interpret a sequence of ledger operations. -/
def runOps (sys : ReputationSystem) (ops : List RepOp) : ReputationSystem :=
  ops.foldl applyOp sys

/-- A score within the documented bounds. -/
def ScoreInRange (q : Rat) : Prop :=
  0 ≤ q ∧ q ≤ 100

/-- Every registered validator's score is within bounds. -/
def ScoreInv (sys : ReputationSystem) : Prop :=
  ∀ p ∈ sys.reputations, ScoreInRange p.2.score

/-- The record produced by the scoring path of `update_reputation` (non-banned
entry): `last_seen` refreshed, then the scoring step. -/
def updatedRecAfter (cfg : ReputationConfig) (rep0 : ValidatorReputation)
    (action : ReputationAction) (now : Nat) : ValidatorReputation :=
  scoreStep cfg { rep0 with last_seen := now } action now

/-- Sample record at score 30 (used to exercise the automatic ban). -/
def score30Rep : ValidatorReputation :=
  { ValidatorReputation.new "v" 0 with score := 30 }

/-- Sample ledger holding `score30Rep` under the default configuration. -/
def score30Sys : ReputationSystem :=
  { reputations := [("v", score30Rep)], config := ReputationConfig.default }

/-- The record stored for "v" after one DoubleVote on `score30Sys` at time 0:
the score 30 - 20 = 10 fell below the ban threshold 15, so the record was
banned for 3600 * (1 + 1) * (1 + 0) = 7200 seconds. -/
def score30BannedRep : ValidatorReputation :=
  { validator_id := "v", score := 10, successful_proposals := 0, invalid_proposals := 0,
    correct_votes := 0, incorrect_votes := 0, timeouts := 0, double_votes := 1,
    last_seen := 0, is_banned := true, banned_until := some 7200 }

/-- Sample record at score 60. -/
def score60Rep : ValidatorReputation :=
  { ValidatorReputation.new "v" 0 with score := 60 }

/-- Sample ledger holding `score60Rep` under the default configuration. -/
def score60Sys : ReputationSystem :=
  { reputations := [("v", score60Rep)], config := ReputationConfig.default }

/-- Sample record at score 5. -/
def lowScoreRep : ValidatorReputation :=
  { ValidatorReputation.new "v" 0 with score := 5 }

/-- Sample ledger holding `lowScoreRep`. -/
def lowScoreSys : ReputationSystem :=
  { reputations := [("v", lowScoreRep)], config := ReputationConfig.default }

/-- Sample record banned until time 100. -/
def bannedRep : ValidatorReputation :=
  { ValidatorReputation.new "v" 0 with is_banned := true, banned_until := some 100 }

/-- Sample ledger holding `bannedRep`. -/
def bannedSys : ReputationSystem :=
  { reputations := [("v", bannedRep)], config := ReputationConfig.default }

/-- A favourable sample vote for block "H" by validator `"v" ++ toString i`. -/
def sampleVoteFor (i : Nat) : ProposalVote :=
  { block_hash := "H"
    block_height := 10
    validator_id := "v" ++ toString i
    is_in_favor := true
    signature := [1]
    timestamp := 0 }

/-- Six favourable sample votes for block "H". -/
def sampleVotes6 : List ProposalVote :=
  [sampleVoteFor 0, sampleVoteFor 1, sampleVoteFor 2,
   sampleVoteFor 3, sampleVoteFor 4, sampleVoteFor 5]

/-- Coordinator holding the six sample votes, threshold 66. -/
def sampleCoord6 : VotingCoordinator :=
  { current_votes := [("H", sampleVotes6)], approval_threshold := 66 }

/-- Directory with ten active validators. -/
def sampleValidators10 : ValidatorSet :=
  { validators :=
      [{ validator_id := "v0", is_active := true }, { validator_id := "v1", is_active := true },
       { validator_id := "v2", is_active := true }, { validator_id := "v3", is_active := true },
       { validator_id := "v4", is_active := true }, { validator_id := "v5", is_active := true },
       { validator_id := "v6", is_active := true }, { validator_id := "v7", is_active := true },
       { validator_id := "v8", is_active := true }, { validator_id := "v9", is_active := true }] }

/-- The tally expected for the six sample votes among ten active validators. -/
def result6 : VotingResult :=
  { block_hash := "H"
    block_height := 10
    total_votes := 6
    votes_in_favor := 6
    votes_against := 0
    approval_percentage := 100
    reached_quorum := true
    is_approved := true }

/-- Directory with a single active validator. -/
def sampleValidators1 : ValidatorSet :=
  { validators := [{ validator_id := "v0", is_active := true }] }

/-- Coordinator holding one favourable vote for "H", threshold 66. -/
def sampleCoord1 : VotingCoordinator :=
  { current_votes := [("H", [sampleVoteFor 0])], approval_threshold := 66 }

/-- The tally expected for one favourable vote among one active validator. -/
def result1 : VotingResult :=
  { block_hash := "H"
    block_height := 10
    total_votes := 1
    votes_in_favor := 1
    votes_against := 0
    approval_percentage := 100
    reached_quorum := true
    is_approved := true }

/-- Coordinator with no recorded votes. -/
def coordEmpty : VotingCoordinator :=
  { current_votes := [], approval_threshold := 66 }

/-- Sample vote by validator "v0" for block "H". -/
def voteV0 : ProposalVote :=
  { block_hash := "H"
    block_height := 10
    validator_id := "v0"
    is_in_favor := true
    signature := [1]
    timestamp := 0 }

/-- A second sample vote by validator "v0" for block "H" (the double-vote). -/
def voteV0again : ProposalVote :=
  { block_hash := "H"
    block_height := 10
    validator_id := "v0"
    is_in_favor := false
    signature := [2]
    timestamp := 3 }

/-- A proposal by "v0" with an empty signature. -/
def emptySigProposal : BlockProposal :=
  { block_hash := "H2"
    block_height := 11
    parent_hash := "H"
    timestamp := 0
    proposer_id := "v0"
    signature := []
    transaction_hashes := []
    consensus_data := []
    received_at := 0 }

theorem find_modifyEntry (l : List (String × ValidatorReputation)) (validator_id : String)
    (f : ValidatorReputation → ValidatorReputation) :
    (modifyEntry l validator_id f).find? (fun p => p.1 = validator_id)
      = (l.find? (fun p => p.1 = validator_id)).map (fun p => (p.1, f p.2)) := by
  induction l with
  | nil => simp [modifyEntry]
  | cons hd tl ih =>
      obtain ⟨k, v⟩ := hd
      by_cases hk : k = validator_id
      · subst hk
        simp [modifyEntry, List.find?]
      · simp [modifyEntry, hk, List.find?, ih]

theorem findRep_writeRep (sys : ReputationSystem) (validator_id : String)
    (f : ValidatorReputation → ValidatorReputation) (rep : ValidatorReputation)
    (h : findRep sys validator_id = some rep) :
    findRep (writeRep sys validator_id f) validator_id = some (f rep) := by
  unfold findRep at h ⊢
  unfold writeRep
  rw [find_modifyEntry]
  obtain ⟨p, hp, hmap⟩ : ∃ p, sys.reputations.find? (fun p => p.1 = validator_id) = some p
      ∧ p.2 = rep := by
    cases hfind : sys.reputations.find? (fun p => p.1 = validator_id) with
    | none => rw [hfind] at h; simp at h
    | some p => rw [hfind] at h; simp at h; exact ⟨p, rfl, h⟩
  simp [hp, hmap]

theorem config_writeRep (sys : ReputationSystem) (validator_id : String)
    (f : ValidatorReputation → ValidatorReputation) :
    (writeRep sys validator_id f).config = sys.config := rfl

theorem mem_modifyEntry (l : List (String × ValidatorReputation)) (validator_id : String)
    (f : ValidatorReputation → ValidatorReputation) (p : String × ValidatorReputation)
    (hp : p ∈ modifyEntry l validator_id f) :
    p ∈ l ∨ ∃ q, q ∈ l ∧ p = (q.1, f q.2) := by
  induction l with
  | nil => simp [modifyEntry] at hp
  | cons hd tl ih =>
      obtain ⟨k, v⟩ := hd
      by_cases hk : k = validator_id
      · subst hk
        simp [modifyEntry] at hp
        rcases hp with h1 | h2
        · exact Or.inr ⟨(k, v), by simp, h1⟩
        · exact Or.inl (List.mem_cons_of_mem _ h2)
      · simp [modifyEntry, hk] at hp
        rcases hp with h1 | h2
        · exact Or.inl (by simp [h1])
        · rcases ih h2 with h3 | ⟨q, hq, hpq⟩
          · exact Or.inl (List.mem_cons_of_mem _ h3)
          · exact Or.inr ⟨q, List.mem_cons_of_mem _ hq, hpq⟩

theorem lookup_setVotesList (l : List (String × List ProposalVote)) (block_hash : String)
    (votes : List ProposalVote) :
    (setVotesList l block_hash votes).find? (fun p => p.1 = block_hash)
      = some (block_hash, votes) := by
  induction l with
  | nil => simp [setVotesList, List.find?]
  | cons hd tl ih =>
      obtain ⟨k, v⟩ := hd
      by_cases hk : k = block_hash
      · subst hk
        simp [setVotesList, List.find?]
      · simp [setVotesList, hk, List.find?, ih]

theorem storedVotes_setVotes (coord : VotingCoordinator) (block_hash : String)
    (votes : List ProposalVote) :
    storedVotes (setVotes coord block_hash votes) block_hash = votes := by
  unfold storedVotes lookupVotes setVotes
  simp [lookup_setVotesList]

theorem clampScore_range (q : Rat) : ScoreInRange (clampScore q) := by
  unfold ScoreInRange clampScore
  constructor
  · have h0 : (0 : Rat) ≤ max q 0 := le_max_right q 0
    have h100 : (0 : Rat) ≤ 100 := by norm_num
    exact le_min h0 h100
  · exact min_le_right _ _

theorem banRep_score (rep : ValidatorReputation) (now duration : Nat) :
    (banRep rep now duration).score = max rep.score 10 := rfl

theorem banRep_range (rep : ValidatorReputation) (now duration : Nat)
    (h : rep.score ≤ 100) : ScoreInRange (banRep rep now duration).score := by
  rw [banRep_score]
  constructor
  · have : (0 : Rat) ≤ 10 := by norm_num
    exact le_trans this (le_max_right _ _)
  · have h10 : (10 : Rat) ≤ 100 := by norm_num
    exact max_le h h10

theorem scoreStep_range (cfg : ReputationConfig) (rep : ValidatorReputation)
    (action : ReputationAction) (now : Nat) :
    ScoreInRange (scoreStep cfg rep action now).score := by
  simp only [scoreStep]
  split
  · exact banRep_range _ _ _ (clampScore_range _).2
  · exact clampScore_range _

theorem checkBanStatus_score (rep : ValidatorReputation) (now : Nat) :
    (checkBanStatus rep now).score = rep.score := by
  unfold checkBanStatus
  rcases rep.banned_until with _ | u
  · rfl
  · by_cases h : u ≤ now <;> simp [h]

theorem findRep_mem (sys : ReputationSystem) (validator_id : String)
    (rep : ValidatorReputation) (h : findRep sys validator_id = some rep) :
    ∃ p ∈ sys.reputations, p.2 = rep := by
  unfold findRep at h
  cases hfind : sys.reputations.find? (fun p => p.1 = validator_id) with
  | none => rw [hfind] at h; simp at h
  | some p =>
      rw [hfind] at h
      simp at h
      exact ⟨p, List.mem_of_find?_eq_some hfind, h⟩

theorem findRep_scoreInRange (sys : ReputationSystem) (validator_id : String)
    (rep : ValidatorReputation) (hsys : ScoreInv sys)
    (h : findRep sys validator_id = some rep) : ScoreInRange rep.score := by
  obtain ⟨p, hp, hrep⟩ := findRep_mem sys validator_id rep h
  rw [← hrep]
  exact hsys p hp

theorem scoreInv_writeRep (sys : ReputationSystem) (validator_id : String)
    (f : ValidatorReputation → ValidatorReputation) (hsys : ScoreInv sys)
    (hf : ∀ r, ScoreInRange r.score → ScoreInRange (f r).score) :
    ScoreInv (writeRep sys validator_id f) := by
  intro p hp
  rcases mem_modifyEntry sys.reputations validator_id f p hp with h1 | ⟨q, hq, hpq⟩
  · exact hsys p h1
  · rw [hpq]
    exact hf q.2 (hsys q hq)

theorem lazyBan_score (rep : ValidatorReputation) (now : Nat) :
    (if rep.is_banned then checkBanStatus rep now else rep).score = rep.score := by
  split
  · exact checkBanStatus_score rep now
  · rfl

theorem scoreInv_updateReputation (sys : ReputationSystem) (validator_id : String)
    (action : ReputationAction) (now : Nat) (hsys : ScoreInv sys) :
    ScoreInv (updateReputation sys validator_id action now).1 := by
  rcases hfind : findRep sys validator_id with _ | rep0
  · simp only [updateReputation, hfind]
    exact hsys
  · have hrange : ScoreInRange rep0.score :=
      findRep_scoreInRange sys validator_id rep0 hsys hfind
    simp only [updateReputation, hfind]
    split
    · split
      · apply scoreInv_writeRep _ _ _ hsys
        intro r _
        rw [checkBanStatus_score]
        simpa using hrange
      · apply scoreInv_writeRep _ _ _ hsys
        intro r _
        exact scoreStep_range _ _ _ _
    · apply scoreInv_writeRep _ _ _ hsys
      intro r _
      exact scoreStep_range _ _ _ _

theorem scoreInv_banValidator (sys : ReputationSystem) (validator_id : String)
    (duration now : Nat) (hsys : ScoreInv sys) :
    ScoreInv (banValidator sys validator_id duration now).1 := by
  rcases hfind : findRep sys validator_id with _ | rep0
  · simp only [banValidator, hfind]
    exact hsys
  · simp only [banValidator, hfind]
    apply scoreInv_writeRep _ _ _ hsys
    intro r hr
    exact banRep_range r now duration hr.2

theorem scoreInv_setReputation (sys : ReputationSystem) (validator_id : String)
    (score : Rat) (hsys : ScoreInv sys) :
    ScoreInv (setReputation sys validator_id score).1 := by
  rcases hfind : findRep sys validator_id with _ | rep0
  · simp only [setReputation, hfind]
    exact hsys
  · simp only [setReputation, hfind]
    apply scoreInv_writeRep _ _ _ hsys
    intro r _
    exact clampScore_range score

theorem scoreInv_addValidator (sys : ReputationSystem) (validator_id : String)
    (now : Nat) (hsys : ScoreInv sys) :
    ScoreInv (addValidator sys validator_id now) := by
  unfold addValidator
  split
  · exact hsys
  · intro p hp
    simp [ValidatorReputation.new] at hp
    rcases hp with h1 | h2
    · exact hsys p h1
    · rw [h2]
      unfold ScoreInRange
      norm_num [ValidatorReputation.new]

theorem scoreInv_foldl_offline (ids : List String) (sys : ReputationSystem) (now : Nat)
    (hsys : ScoreInv sys) :
    ScoreInv (ids.foldl (fun s i => (updateReputation s i ReputationAction.Offline now).1) sys) := by
  induction ids generalizing sys with
  | nil => exact hsys
  | cons hd tl ih =>
      exact ih _ (scoreInv_updateReputation sys hd ReputationAction.Offline now hsys)

theorem scoreInv_updateOfflineStatus (sys : ReputationSystem) (threshold now : Nat)
    (hsys : ScoreInv sys) : ScoreInv (updateOfflineStatus sys threshold now) := by
  unfold updateOfflineStatus
  exact scoreInv_foldl_offline _ sys now hsys

theorem scoreInv_applyOp (sys : ReputationSystem) (op : RepOp) (hsys : ScoreInv sys) :
    ScoreInv (applyOp sys op) := by
  cases op with
  | add validator_id now => exact scoreInv_addValidator sys validator_id now hsys
  | update validator_id action now => exact scoreInv_updateReputation sys validator_id action now hsys
  | setScore validator_id score => exact scoreInv_setReputation sys validator_id score hsys
  | ban validator_id duration now => exact scoreInv_banValidator sys validator_id duration now hsys
  | offline threshold now => exact scoreInv_updateOfflineStatus sys threshold now hsys

theorem scoreInv_runOps (sys : ReputationSystem) (ops : List RepOp) (hsys : ScoreInv sys) :
    ScoreInv (runOps sys ops) := by
  unfold runOps
  induction ops generalizing sys with
  | nil => exact hsys
  | cons hd tl ih => exact ih _ (scoreInv_applyOp sys hd hsys)

theorem checkBanStatus_not_expired (rep : ValidatorReputation) (u now : Nat)
    (hu : rep.banned_until = some u) (h : now < u) : checkBanStatus rep now = rep := by
  simp [checkBanStatus, hu, Nat.not_le.mpr h]

/-- C3: starting from an empty ledger with any configuration, after every
sequence of operations (add_validator, update_reputation, set_reputation,
ban_validator, update_offline_status) every registered validator's score
satisfies `0 ≤ score ≤ 100`; a freshly added validator is registered with the
neutral record, whose score is 50. -/
theorem C3_score_bounds (cfg : ReputationConfig) (ops : List RepOp)
    (validator_id : String) (now : Nat) :
    ScoreInv (runOps (ReputationSystem.with_config cfg) ops)
    ∧ findRep (addValidator (ReputationSystem.with_config cfg) validator_id now) validator_id
        = some (ValidatorReputation.new validator_id now)
    ∧ (ValidatorReputation.new validator_id now).score = 50 := by
  refine ⟨scoreInv_runOps _ ops ?_, ?_, rfl⟩
  · intro p hp
    simp [ReputationSystem.with_config] at hp
  · simp [addValidator, findRep, ReputationSystem.with_config, List.find?]

/-- C10: `is_banned` on an id that is not registered returns `false`, not an
error and not a banned verdict. -/
theorem C10_unregistered_not_banned (sys : ReputationSystem) (validator_id : String)
    (h : findRep sys validator_id = none) :
    isBannedQuery sys validator_id = false := by
  simp [isBannedQuery, h]

theorem C10_unregistered_not_banned_witness :
    findRep ReputationSystem.new "ghost" = none
    ∧ isBannedQuery ReputationSystem.new "ghost" = false :=
  ⟨rfl, C10_unregistered_not_banned ReputationSystem.new "ghost" rfl⟩

/-- C9: banning (the shared `ban` routine used by `ban_validator` and the
automatic ban) sets the score to `max(score, 10)`: a ban never lowers a score,
and an explicit administrative ban of a validator whose score is below 10
raises it to exactly 10. -/
theorem C9_ban_score_floor (sys : ReputationSystem) (validator_id : String)
    (duration now : Nat) (rep0 : ValidatorReputation)
    (hfind : findRep sys validator_id = some rep0) :
    (banValidator sys validator_id duration now).2 = Except.ok ()
    ∧ findRep (banValidator sys validator_id duration now).1 validator_id
        = some (banRep rep0 now duration)
    ∧ (banRep rep0 now duration).score = max rep0.score 10
    ∧ rep0.score ≤ (banRep rep0 now duration).score
    ∧ (rep0.score < 10 → (banRep rep0 now duration).score = 10) := by
  refine ⟨?_, ?_, rfl, le_max_left _ _, ?_⟩
  · simp [banValidator, hfind]
  · simp only [banValidator, hfind]
    exact findRep_writeRep sys validator_id _ rep0 hfind
  · intro hlt
    rw [banRep_score]
    exact max_eq_right (le_of_lt hlt)

theorem C9_ban_score_floor_witness :
    findRep lowScoreSys "v" = some lowScoreRep
    ∧ ((findRep (banValidator lowScoreSys "v" 3600 0).1 "v").map (fun r => r.score))
        = some 10 := by
  have h := C9_ban_score_floor lowScoreSys "v" 3600 0 lowScoreRep rfl
  refine ⟨rfl, ?_⟩
  rw [h.2.1]
  have h10 : (banRep lowScoreRep 0 3600).score = 10 :=
    h.2.2.2.2 (by norm_num [lowScoreRep, ValidatorReputation.new])
  simp [h10]

/-- C6: `update_reputation` on a validator whose ban has not expired fails
with the Banned error, and the stored record keeps its score, all behavioural
counters and its ban state; only `last_seen` is updated. -/
theorem C6_banned_updates_nothing (sys : ReputationSystem) (validator_id : String)
    (action : ReputationAction) (now : Nat) (rep0 : ValidatorReputation) (until_t : Nat)
    (hfind : findRep sys validator_id = some rep0)
    (hb : rep0.is_banned = true)
    (hu : rep0.banned_until = some until_t)
    (hnotexp : now < until_t) :
    (updateReputation sys validator_id action now).2
        = Except.error ("Validador está banido: " ++ validator_id)
    ∧ findRep (updateReputation sys validator_id action now).1 validator_id
        = some { rep0 with last_seen := now } := by
  have hcheck : checkBanStatus { rep0 with last_seen := now } now
      = { rep0 with last_seen := now } :=
    checkBanStatus_not_expired _ until_t now hu hnotexp
  rw [hb] at hcheck
  constructor
  · simp only [updateReputation, hfind]
    simp [hb, hcheck]
  · simp only [updateReputation, hfind]
    simp [hb, hcheck]
    exact findRep_writeRep sys validator_id _ rep0 hfind

theorem C6_banned_updates_nothing_witness :
    (updateReputation bannedSys "v" ReputationAction.CorrectVote 5).2
        = Except.error ("Validador está banido: " ++ "v")
    ∧ findRep (updateReputation bannedSys "v" ReputationAction.CorrectVote 5).1 "v"
        = some { bannedRep with last_seen := 5 } := by
  have h := C6_banned_updates_nothing bannedSys "v" ReputationAction.CorrectVote 5
    bannedRep 100 rfl rfl rfl (by norm_num)
  exact ⟨h.1, h.2⟩

/-- C4: when `update_reputation` applies a negative adjustment and the clamped
score falls below `ban_threshold`, the stored record is banned for exactly
`initial_ban_duration * (1 + d) * (1 + p)`, where `d` and `p` are the
post-increment `double_votes` and `invalid_proposals` counters of the record
at that moment (`banned_until = now + duration`). -/
theorem C4_ban_escalation (sys : ReputationSystem) (validator_id : String)
    (action : ReputationAction) (now : Nat) (rep0 : ValidatorReputation)
    (hfind : findRep sys validator_id = some rep0)
    (hnb : rep0.is_banned = false)
    (hneg : (applyAction sys.config { rep0 with last_seen := now } action).2 < 0)
    (hlow : clampScore ((applyAction sys.config { rep0 with last_seen := now } action).1.score
          + (applyAction sys.config { rep0 with last_seen := now } action).2)
        < sys.config.ban_threshold) :
    findRep (updateReputation sys validator_id action now).1 validator_id
        = some (updatedRecAfter sys.config rep0 action now)
    ∧ (updatedRecAfter sys.config rep0 action now).is_banned = true
    ∧ (updatedRecAfter sys.config rep0 action now).banned_until
        = some (now + sys.config.initial_ban_duration
            * ((1 + (updatedRecAfter sys.config rep0 action now).double_votes)
               * (1 + (updatedRecAfter sys.config rep0 action now).invalid_proposals))) := by
  have hstep : updatedRecAfter sys.config rep0 action now
      = banRep
          { (applyAction sys.config { rep0 with last_seen := now } action).1 with
            score := clampScore
              ((applyAction sys.config { rep0 with last_seen := now } action).1.score
                + (applyAction sys.config { rep0 with last_seen := now } action).2) }
          now
          (sys.config.initial_ban_duration
            * ((1 + (applyAction sys.config { rep0 with last_seen := now } action).1.double_votes)
               * (1 + (applyAction sys.config { rep0 with last_seen := now } action).1.invalid_proposals))) := by
    simp only [updatedRecAfter, scoreStep]
    rw [if_pos ⟨hneg, hlow⟩]
  have hnb1 : ¬(({ rep0 with last_seen := now } : ValidatorReputation).is_banned = true) := by
    simp [hnb]
  refine ⟨?_, ?_, ?_⟩
  · simp only [updateReputation, hfind]
    rw [if_neg hnb1, if_neg hnb1]
    exact findRep_writeRep sys validator_id _ rep0 hfind
  · rw [hstep]
    rfl
  · rw [hstep]
    rfl

theorem C4_ban_escalation_witness :
    findRep (updateReputation score30Sys "v" ReputationAction.DoubleVote 7).1 "v"
        = some (updatedRecAfter score30Sys.config score30Rep ReputationAction.DoubleVote 7)
    ∧ (updatedRecAfter score30Sys.config score30Rep ReputationAction.DoubleVote 7).is_banned
        = true
    ∧ (updatedRecAfter score30Sys.config score30Rep ReputationAction.DoubleVote 7).double_votes
        = 1
    ∧ (updatedRecAfter score30Sys.config score30Rep
        ReputationAction.DoubleVote 7).invalid_proposals = 0
    ∧ (updatedRecAfter score30Sys.config score30Rep ReputationAction.DoubleVote 7).banned_until
        = some (7 + 3600 * ((1 + 1) * (1 + 0))) := by
  have h := C4_ban_escalation score30Sys "v" ReputationAction.DoubleVote 7 score30Rep rfl rfl
    (by norm_num [applyAction, score30Sys, ReputationConfig.default])
    (by norm_num [applyAction, clampScore, score30Sys, score30Rep, ReputationConfig.default,
      ValidatorReputation.new])
  have hrec : updatedRecAfter score30Sys.config score30Rep ReputationAction.DoubleVote 7
      = { validator_id := "v", score := 10, successful_proposals := 0, invalid_proposals := 0,
          correct_votes := 0, incorrect_votes := 0, timeouts := 0, double_votes := 1,
          last_seen := 7, is_banned := true, banned_until := some 7207 } := by
    norm_num [updatedRecAfter, scoreStep, applyAction, clampScore, banRep, score30Sys,
      score30Rep, ReputationConfig.default, ValidatorReputation.new]
  refine ⟨h.1, h.2.1, ?_, ?_, ?_⟩
  · rw [hrec]
  · rw [hrec]
  · rw [hrec]

theorem updateReputation_not_banned (sys : ReputationSystem) (validator_id : String)
    (action : ReputationAction) (now : Nat) (rep0 : ValidatorReputation)
    (hfind : findRep sys validator_id = some rep0) (hnb : rep0.is_banned = false) :
    updateReputation sys validator_id action now
      = (writeRep sys validator_id (fun _ => updatedRecAfter sys.config rep0 action now),
         Except.ok (updatedRecAfter sys.config rep0 action now).score) := by
  have hnb1 : ¬(({ rep0 with last_seen := now } : ValidatorReputation).is_banned = true) := by
    simp [hnb]
  simp only [updateReputation, hfind]
  rw [if_neg hnb1, if_neg hnb1]
  rfl

theorem updateReputation_still_banned (sys : ReputationSystem) (validator_id : String)
    (action : ReputationAction) (now : Nat) (rep0 : ValidatorReputation) (u : Nat)
    (hfind : findRep sys validator_id = some rep0) (hb : rep0.is_banned = true)
    (hu : rep0.banned_until = some u) (hexp : now < u) :
    updateReputation sys validator_id action now
      = (writeRep sys validator_id (fun _ => { rep0 with last_seen := now }),
         Except.error ("Validador está banido: " ++ validator_id)) := by
  have hcheck : checkBanStatus { rep0 with last_seen := now } now
      = { rep0 with last_seen := now } :=
    checkBanStatus_not_expired _ u now hu hexp
  rw [hb] at hcheck
  simp only [updateReputation, hfind]
  simp [hb, hcheck]

theorem scoreStep_DoubleVote_no_ban (cfg : ReputationConfig) (rep : ValidatorReputation)
    (now : Nat)
    (h : cfg.ban_threshold ≤ clampScore (rep.score - cfg.double_vote_penalty)) :
    scoreStep cfg rep ReputationAction.DoubleVote now
      = { rep with
          double_votes := rep.double_votes + 1
          score := clampScore (rep.score - cfg.double_vote_penalty) } := by
  rw [sub_eq_add_neg] at h ⊢
  simp only [scoreStep, applyAction]
  split
  · rename_i hc
    exact absurd hc.2 (not_lt.mpr h)
  · rfl

theorem clampScore_lt_self (s pen : Rat) (hpen : 0 < pen) (hs : 0 < s) :
    clampScore (s - pen) < s := by
  unfold clampScore
  have h1 : max (s - pen) 0 < s := max_lt (by linarith) hs
  exact lt_of_le_of_lt (min_le_left _ _) h1

theorem pos_of_clamp_le (t s pen : Rat) (ht : 0 < t) (h : t ≤ clampScore (s - pen)) :
    0 < s - pen := by
  unfold clampScore at h
  by_contra hc
  push_neg at hc
  have hmax : max (s - pen) 0 = 0 := max_eq_right hc
  rw [hmax] at h
  have hmin : min (0 : Rat) 100 = 0 := by norm_num
  rw [hmin] at h
  linarith

/-- C5 counterexample: "v" is registered and not banned at score 30 under the
default configuration, yet the second consecutive DoubleVote update fails with
the Banned error and leaves `double_votes` at 1, because the first update
banned the validator.  This refutes the claim that both applications always
decrement the score and increment the counter. -/
theorem C5_counterexample :
    (updateReputation (updateReputation score30Sys "v" ReputationAction.DoubleVote 0).1
        "v" ReputationAction.DoubleVote 1).2
      = Except.error ("Validador está banido: " ++ "v")
    ∧ ((findRep (updateReputation (updateReputation score30Sys "v" ReputationAction.DoubleVote 0).1
          "v" ReputationAction.DoubleVote 1).1 "v").map (fun r => r.double_votes))
        = some 1
    ∧ score30Rep.is_banned = false
    ∧ findRep score30Sys "v" = some score30Rep := by
  have h1 := updateReputation_not_banned score30Sys "v" ReputationAction.DoubleVote 0
    score30Rep rfl rfl
  have hrec : updatedRecAfter score30Sys.config score30Rep ReputationAction.DoubleVote 0
      = score30BannedRep := by
    norm_num [updatedRecAfter, scoreStep, applyAction, clampScore, banRep, score30Sys,
      score30Rep, score30BannedRep, ReputationConfig.default, ValidatorReputation.new]
  have hfind1 : findRep (updateReputation score30Sys "v" ReputationAction.DoubleVote 0).1 "v"
      = some score30BannedRep := by
    rw [h1]
    rw [← hrec]
    exact findRep_writeRep score30Sys "v" _ score30Rep rfl
  have h2 := updateReputation_still_banned
    (updateReputation score30Sys "v" ReputationAction.DoubleVote 0).1 "v"
    ReputationAction.DoubleVote 1 score30BannedRep 7200 hfind1 rfl rfl (by norm_num)
  refine ⟨?_, ?_, rfl, rfl⟩
  · rw [h2]
  · rw [h2]
    rw [findRep_writeRep _ "v" _ _ hfind1]
    simp [score30BannedRep]

/-- C5 (amended): for a registered, non-banned validator, two consecutive
DoubleVote updates strictly decrease the score both times and increment
`double_votes` each time, provided the double-vote penalty and the ban
threshold are positive and neither update drives the clamped score below the
ban threshold (otherwise the first update bans the validator, the ban floors
the score at 10, and the second update fails without touching the counter). -/
theorem C5_double_vote_twice (sys : ReputationSystem) (validator_id : String)
    (now1 now2 : Nat) (rep0 : ValidatorReputation)
    (hfind : findRep sys validator_id = some rep0)
    (hnb : rep0.is_banned = false)
    (hpen : 0 < sys.config.double_vote_penalty)
    (hthresh : 0 < sys.config.ban_threshold)
    (hnoban1 : sys.config.ban_threshold
        ≤ clampScore (rep0.score - sys.config.double_vote_penalty))
    (hnoban2 : sys.config.ban_threshold
        ≤ clampScore (clampScore (rep0.score - sys.config.double_vote_penalty)
            - sys.config.double_vote_penalty)) :
    findRep (updateReputation sys validator_id ReputationAction.DoubleVote now1).1 validator_id
        = some (updatedRecAfter sys.config rep0 ReputationAction.DoubleVote now1)
    ∧ (updatedRecAfter sys.config rep0 ReputationAction.DoubleVote now1).double_votes
        = rep0.double_votes + 1
    ∧ (updatedRecAfter sys.config rep0 ReputationAction.DoubleVote now1).score < rep0.score
    ∧ findRep (updateReputation
          (updateReputation sys validator_id ReputationAction.DoubleVote now1).1
          validator_id ReputationAction.DoubleVote now2).1 validator_id
        = some (updatedRecAfter sys.config
            (updatedRecAfter sys.config rep0 ReputationAction.DoubleVote now1)
            ReputationAction.DoubleVote now2)
    ∧ (updatedRecAfter sys.config
          (updatedRecAfter sys.config rep0 ReputationAction.DoubleVote now1)
          ReputationAction.DoubleVote now2).double_votes = rep0.double_votes + 2
    ∧ (updatedRecAfter sys.config
          (updatedRecAfter sys.config rep0 ReputationAction.DoubleVote now1)
          ReputationAction.DoubleVote now2).score
        < (updatedRecAfter sys.config rep0 ReputationAction.DoubleVote now1).score := by
  have hspos : 0 < rep0.score := by
    have h := pos_of_clamp_le sys.config.ban_threshold rep0.score
      sys.config.double_vote_penalty hthresh hnoban1
    linarith
  have hR1form : updatedRecAfter sys.config rep0 ReputationAction.DoubleVote now1
      = { rep0 with
          last_seen := now1
          double_votes := rep0.double_votes + 1
          score := clampScore (rep0.score - sys.config.double_vote_penalty) } := by
    unfold updatedRecAfter
    rw [scoreStep_DoubleVote_no_ban sys.config { rep0 with last_seen := now1 } now1 hnoban1]
  have hR1score : (updatedRecAfter sys.config rep0 ReputationAction.DoubleVote now1).score
      = clampScore (rep0.score - sys.config.double_vote_penalty) := by
    rw [hR1form]
  have hR1dv : (updatedRecAfter sys.config rep0 ReputationAction.DoubleVote now1).double_votes
      = rep0.double_votes + 1 := by
    rw [hR1form]
  have hR1b : (updatedRecAfter sys.config rep0 ReputationAction.DoubleVote now1).is_banned
      = false := by
    rw [hR1form]
    exact hnb
  have h1 := updateReputation_not_banned sys validator_id ReputationAction.DoubleVote now1
    rep0 hfind hnb
  have hfind1 : findRep (updateReputation sys validator_id ReputationAction.DoubleVote now1).1
      validator_id = some (updatedRecAfter sys.config rep0 ReputationAction.DoubleVote now1) := by
    rw [h1]
    exact findRep_writeRep sys validator_id _ rep0 hfind
  have hcfg : (updateReputation sys validator_id ReputationAction.DoubleVote now1).1.config
      = sys.config := by
    rw [h1]
    rfl
  have hnoban2R : sys.config.ban_threshold
      ≤ clampScore ((updatedRecAfter sys.config rep0 ReputationAction.DoubleVote now1).score
          - sys.config.double_vote_penalty) := by
    rw [hR1score]
    exact hnoban2
  have hR2form : updatedRecAfter sys.config
        (updatedRecAfter sys.config rep0 ReputationAction.DoubleVote now1)
        ReputationAction.DoubleVote now2
      = { (updatedRecAfter sys.config rep0 ReputationAction.DoubleVote now1) with
          last_seen := now2
          double_votes :=
            (updatedRecAfter sys.config rep0 ReputationAction.DoubleVote now1).double_votes + 1
          score := clampScore
            ((updatedRecAfter sys.config rep0 ReputationAction.DoubleVote now1).score
              - sys.config.double_vote_penalty) } := by
    have hdef : updatedRecAfter sys.config
          (updatedRecAfter sys.config rep0 ReputationAction.DoubleVote now1)
          ReputationAction.DoubleVote now2
        = scoreStep sys.config
            { (updatedRecAfter sys.config rep0 ReputationAction.DoubleVote now1) with
              last_seen := now2 }
            ReputationAction.DoubleVote now2 := rfl
    rw [hdef, scoreStep_DoubleVote_no_ban sys.config
      { (updatedRecAfter sys.config rep0 ReputationAction.DoubleVote now1) with
        last_seen := now2 } now2 hnoban2R]
  have hfind2 : findRep (updateReputation
        (updateReputation sys validator_id ReputationAction.DoubleVote now1).1
        validator_id ReputationAction.DoubleVote now2).1 validator_id
      = some (updatedRecAfter sys.config
          (updatedRecAfter sys.config rep0 ReputationAction.DoubleVote now1)
          ReputationAction.DoubleVote now2) := by
    have h2 := updateReputation_not_banned
      (updateReputation sys validator_id ReputationAction.DoubleVote now1).1 validator_id
      ReputationAction.DoubleVote now2
      (updatedRecAfter sys.config rep0 ReputationAction.DoubleVote now1) hfind1 hR1b
    rw [hcfg] at h2
    rw [h2]
    exact findRep_writeRep _ validator_id _ _ hfind1
  refine ⟨hfind1, hR1dv, ?_, hfind2, ?_, ?_⟩
  · rw [hR1score]
    exact clampScore_lt_self rep0.score sys.config.double_vote_penalty hpen hspos
  · rw [hR2form]
    simp only [hR1dv]
  · rw [hR2form]
    have hR1pos : 0 < (updatedRecAfter sys.config rep0 ReputationAction.DoubleVote now1).score := by
      rw [hR1score]
      exact lt_of_lt_of_le hthresh hnoban1
    exact clampScore_lt_self _ sys.config.double_vote_penalty hpen hR1pos

theorem C5_double_vote_twice_witness :
    ((findRep (updateReputation score60Sys "v" ReputationAction.DoubleVote 1).1 "v").map
        (fun r => (r.double_votes, r.score))) = some (1, 40)
    ∧ ((findRep (updateReputation
          (updateReputation score60Sys "v" ReputationAction.DoubleVote 1).1
          "v" ReputationAction.DoubleVote 2).1 "v").map
        (fun r => (r.double_votes, r.score))) = some (2, 20) := by
  have h := C5_double_vote_twice score60Sys "v" 1 2 score60Rep rfl rfl
    (by norm_num [score60Sys, ReputationConfig.default])
    (by norm_num [score60Sys, ReputationConfig.default])
    (by norm_num [clampScore, score60Sys, score60Rep, ReputationConfig.default,
      ValidatorReputation.new])
    (by norm_num [clampScore, score60Sys, score60Rep, ReputationConfig.default,
      ValidatorReputation.new])
  obtain ⟨hf1, hdv1, _, hf2, hdv2, _⟩ := h
  constructor
  · rw [hf1]
    have hs : (updatedRecAfter score60Sys.config score60Rep
        ReputationAction.DoubleVote 1).score = 40 := by
      norm_num [updatedRecAfter, scoreStep, applyAction, clampScore, score60Sys, score60Rep,
        ReputationConfig.default, ValidatorReputation.new]
    have hdv : (updatedRecAfter score60Sys.config score60Rep
        ReputationAction.DoubleVote 1).double_votes = 1 := by
      rw [hdv1]
      norm_num [score60Rep, ValidatorReputation.new]
    simp [hdv, hs]
  · rw [hf2]
    have hs2 : (updatedRecAfter score60Sys.config
        (updatedRecAfter score60Sys.config score60Rep ReputationAction.DoubleVote 1)
        ReputationAction.DoubleVote 2).score = 20 := by
      norm_num [updatedRecAfter, scoreStep, applyAction, clampScore, score60Sys, score60Rep,
        ReputationConfig.default, ValidatorReputation.new]
    have hdv : (updatedRecAfter score60Sys.config
        (updatedRecAfter score60Sys.config score60Rep ReputationAction.DoubleVote 1)
        ReputationAction.DoubleVote 2).double_votes = 2 := by
      rw [hdv2]
      norm_num [score60Rep, ValidatorReputation.new]
    simp [hdv, hs2]

theorem tallyVotes_spec (coord : VotingCoordinator) (validators : ValidatorSet)
    (block_hash : String) (result : VotingResult)
    (htally : tallyVotes coord validators block_hash = some result) :
    result.reached_quorum = decide (validators.count_active * 2 / 3 ≤ result.total_votes)
    ∧ result.is_approved = (result.reached_quorum
        && decide (coord.approval_threshold ≤ result.approval_percentage))
    ∧ 1 ≤ result.total_votes := by
  unfold tallyVotes at htally
  cases hl : lookupVotes coord block_hash with
  | none =>
      rw [hl] at htally
      simp at htally
  | some votes =>
      rw [hl] at htally
      cases votes with
      | nil => simp at htally
      | cons v0 rest =>
          simp only [] at htally
          have h := Option.some.inj htally
          subst h
          refine ⟨rfl, rfl, ?_⟩
          simp [List.length_cons]

theorem hasReachedFinality_of_tally (coord : VotingCoordinator) (validators : ValidatorSet)
    (block_hash : String) (result : VotingResult)
    (htally : tallyVotes coord validators block_hash = some result) :
    hasReachedFinality coord validators block_hash = result.is_approved := by
  unfold hasReachedFinality
  rw [htally]

/-- C1: whenever `tally_votes` returns a result, `reached_quorum` is true
exactly when `total_votes ≥ (active_validator_count * 2) / 3` under integer
division; in particular with 10 active validators 6 recorded votes already
reach quorum (threshold 6), and with 4 active validators the threshold is 2. -/
theorem C1_quorum_threshold (coord : VotingCoordinator) (validators : ValidatorSet)
    (block_hash : String) (result : VotingResult)
    (htally : tallyVotes coord validators block_hash = some result) :
    (result.reached_quorum = true ↔ validators.count_active * 2 / 3 ≤ result.total_votes)
    ∧ (validators.count_active = 10 →
        (result.reached_quorum = true ↔ 6 ≤ result.total_votes))
    ∧ (validators.count_active = 4 →
        (result.reached_quorum = true ↔ 2 ≤ result.total_votes)) := by
  have hspec := (tallyVotes_spec coord validators block_hash result htally).1
  refine ⟨?_, ?_, ?_⟩
  · rw [hspec]
    simp
  · intro hc
    rw [hspec, hc]
    simp
  · intro hc
    rw [hspec, hc]
    simp

theorem C1_quorum_threshold_witness :
    tallyVotes sampleCoord6 sampleValidators10 "H" = some result6
    ∧ result6.total_votes = 6
    ∧ sampleValidators10.count_active = 10
    ∧ result6.reached_quorum = true := by
  have h6 : tallyVotes sampleCoord6 sampleValidators10 "H" = some result6 := by
    norm_num [tallyVotes, lookupVotes, sampleCoord6, sampleValidators10, sampleVotes6,
      sampleVoteFor, result6, ValidatorSet.count_active, List.find?]
  refine ⟨h6, rfl, rfl, ?_⟩
  exact ((C1_quorum_threshold sampleCoord6 sampleValidators10 "H" result6 h6).2.1 rfl).mpr
    (by norm_num [result6])

/-- C8: when the active validator count is 0 or 1, the integer-division quorum
threshold `active * 2 / 3` is 0, so any recorded tally reaches quorum (one
vote suffices), and finality reduces to the approval-percentage test. -/
theorem C8_tiny_directory_quorum (coord : VotingCoordinator) (validators : ValidatorSet)
    (block_hash : String) (result : VotingResult)
    (htally : tallyVotes coord validators block_hash = some result)
    (hsmall : validators.count_active ≤ 1) :
    validators.count_active * 2 / 3 = 0
    ∧ result.reached_quorum = true
    ∧ hasReachedFinality coord validators block_hash
        = decide (coord.approval_threshold ≤ result.approval_percentage) := by
  have hspec := tallyVotes_spec coord validators block_hash result htally
  have h0 : validators.count_active * 2 / 3 = 0 := by omega
  have hq : result.reached_quorum = true := by
    rw [hspec.1, h0]
    simp
  refine ⟨h0, hq, ?_⟩
  rw [hasReachedFinality_of_tally coord validators block_hash result htally, hspec.2.1, hq]
  simp

theorem C8_tiny_directory_quorum_witness :
    tallyVotes sampleCoord1 sampleValidators1 "H" = some result1
    ∧ sampleValidators1.count_active = 1
    ∧ result1.reached_quorum = true
    ∧ hasReachedFinality sampleCoord1 sampleValidators1 "H" = true := by
  have h1 : tallyVotes sampleCoord1 sampleValidators1 "H" = some result1 := by
    norm_num [tallyVotes, lookupVotes, sampleCoord1, sampleValidators1, sampleVoteFor,
      result1, ValidatorSet.count_active, List.find?]
  have h := C8_tiny_directory_quorum sampleCoord1 sampleValidators1 "H" result1 h1 (by decide)
  refine ⟨h1, rfl, h.2.1, ?_⟩
  rw [h.2.2]
  norm_num [result1, sampleCoord1]

/-- C7: a proposal whose proposer is known and active but whose signature is
empty is rejected with the invalid-signature verdict — a non-empty reason
distinct from each other failure reason — and the reputation ledger is
returned entirely unchanged. -/
theorem C7_empty_signature_frame (validators : ValidatorSet) (reputation : ReputationSystem)
    (proposal : BlockProposal) (now_ms now_mono : Nat) (v : ValidatorInfo)
    (hget : validators.get_validator proposal.proposer_id = some v)
    (hactive : v.is_active = true)
    (hsig : proposal.signature = []) :
    verifyProposal validators reputation proposal now_ms now_mono
      = Except.ok (VerificationResult.Invalid "Assinatura inválida", reputation)
    ∧ "Assinatura inválida" ≠ ""
    ∧ "Assinatura inválida" ≠ "Validador desconhecido"
    ∧ "Assinatura inválida" ≠ "Validador não está ativo"
    ∧ "Assinatura inválida" ≠ "Timestamp inválido" := by
  refine ⟨?_, by decide, by decide, by decide, by decide⟩
  simp [verifyProposal, hget, hactive, hsig]

theorem C7_empty_signature_frame_witness :
    verifyProposal sampleValidators1 ReputationSystem.new emptySigProposal 0 0
      = Except.ok (VerificationResult.Invalid "Assinatura inválida", ReputationSystem.new) :=
  (C7_empty_signature_frame sampleValidators1 ReputationSystem.new emptySigProposal 0 0
    { validator_id := "v0", is_active := true } rfl rfl rfl).1

theorem processVote_fresh (coord : VotingCoordinator) (validators : ValidatorSet)
    (reputation : ReputationSystem) (vote : ProposalVote) (now : Nat)
    (hknown : validators.containsId vote.validator_id = true)
    (hfreshb : ((storedVotes coord vote.block_hash).any
        (fun w => w.validator_id = vote.validator_id)) = false) :
    processVote coord validators reputation vote now
      = (setVotes coord vote.block_hash (storedVotes coord vote.block_hash ++ [vote]),
         reputation, Except.ok true) := by
  simp [processVote, hknown, hfreshb]

theorem processVote_duplicate (coord : VotingCoordinator) (validators : ValidatorSet)
    (reputation : ReputationSystem) (vote : ProposalVote) (now : Nat)
    (hknown : validators.containsId vote.validator_id = true)
    (hdup : ((storedVotes coord vote.block_hash).any
        (fun w => w.validator_id = vote.validator_id)) = true) :
    processVote coord validators reputation vote now
      = (setVotes coord vote.block_hash (storedVotes coord vote.block_hash),
         (updateReputation reputation vote.validator_id ReputationAction.DoubleVote now).1,
         Except.error (ConsensusError.ValidationFailed "Tentativa de double-voting")) := by
  simp [processVote, hknown, hdup]

/-- C2: for a voter known in the directory, the first `process_vote` for a
given (validator_id, block_hash) pair returns Ok(true) and appends the vote;
a second call for the same pair fails with ValidationFailed, does not add the
offending vote, and leaves the stored vote list for that hash unchanged. -/
theorem C2_process_vote_dedup (coord : VotingCoordinator) (validators : ValidatorSet)
    (reputation reputation2 : ReputationSystem) (vote vote2 : ProposalVote) (now1 now2 : Nat)
    (hknown : validators.containsId vote.validator_id = true)
    (hid : vote2.validator_id = vote.validator_id)
    (hhash : vote2.block_hash = vote.block_hash)
    (hfresh : ∀ w ∈ storedVotes coord vote.block_hash,
        ¬(w.validator_id = vote.validator_id)) :
    (processVote coord validators reputation vote now1).2.2 = Except.ok true
    ∧ storedVotes (processVote coord validators reputation vote now1).1 vote.block_hash
        = storedVotes coord vote.block_hash ++ [vote]
    ∧ (processVote (processVote coord validators reputation vote now1).1 validators
          reputation2 vote2 now2).2.2
        = Except.error (ConsensusError.ValidationFailed "Tentativa de double-voting")
    ∧ storedVotes (processVote (processVote coord validators reputation vote now1).1 validators
          reputation2 vote2 now2).1 vote.block_hash
        = storedVotes (processVote coord validators reputation vote now1).1 vote.block_hash := by
  have hany : ((storedVotes coord vote.block_hash).any
      (fun w => w.validator_id = vote.validator_id)) = false := by
    simp only [List.any_eq_false, decide_eq_true_eq]
    exact hfresh
  have hstep1 := processVote_fresh coord validators reputation vote now1 hknown hany
  have hknown2 : validators.containsId vote2.validator_id = true := by
    rw [hid]
    exact hknown
  have hstored1 : storedVotes (processVote coord validators reputation vote now1).1
      vote2.block_hash = storedVotes coord vote.block_hash ++ [vote] := by
    rw [hhash, hstep1]
    exact storedVotes_setVotes coord vote.block_hash _
  have hany2 : ((storedVotes (processVote coord validators reputation vote now1).1
      vote2.block_hash).any (fun w => w.validator_id = vote2.validator_id)) = true := by
    rw [hstored1, List.any_eq_true]
    refine ⟨vote, by simp, by simp [hid]⟩
  have hstep2 := processVote_duplicate
    (processVote coord validators reputation vote now1).1 validators reputation2 vote2 now2
    hknown2 hany2
  refine ⟨?_, ?_, ?_, ?_⟩
  · rw [hstep1]
  · rw [hstep1]
    exact storedVotes_setVotes coord vote.block_hash _
  · rw [hstep2]
  · rw [hstep2]
    rw [hhash]
    exact storedVotes_setVotes _ vote.block_hash _

theorem C2_process_vote_dedup_witness :
    (processVote coordEmpty sampleValidators1 ReputationSystem.new voteV0 0).2.2
        = Except.ok true
    ∧ storedVotes (processVote coordEmpty sampleValidators1 ReputationSystem.new voteV0 0).1 "H"
        = [voteV0]
    ∧ (processVote (processVote coordEmpty sampleValidators1 ReputationSystem.new voteV0 0).1
          sampleValidators1 ReputationSystem.new voteV0again 1).2.2
        = Except.error (ConsensusError.ValidationFailed "Tentativa de double-voting")
    ∧ storedVotes (processVote
          (processVote coordEmpty sampleValidators1 ReputationSystem.new voteV0 0).1
          sampleValidators1 ReputationSystem.new voteV0again 1).1 "H"
        = [voteV0] := by
  have h := C2_process_vote_dedup coordEmpty sampleValidators1 ReputationSystem.new
    ReputationSystem.new voteV0 voteV0again 0 1 rfl rfl rfl
    (by simp [storedVotes, lookupVotes, coordEmpty])
  have hempt : storedVotes coordEmpty voteV0.block_hash = [] := rfl
  refine ⟨h.1, ?_, h.2.2.1, ?_⟩
  · have h2 := h.2.1
    rw [hempt] at h2
    simpa using h2
  · have h4 := h.2.2.2
    rw [h.2.1, hempt] at h4
    simpa using h4
